import Mathlib

/-!
Verification development for the bt-sec-analyzer repository.

Shallow embedding of the core components described in the spec:
 * MAC-address helpers (`bt_sectester/utils/helpers.py`)
 * the device-discovery fusion engine (`bluetooth_scanner.py`)
 * the privileged execution gateway (`privileges.py`)
 * the attack execution core (`attack_simulator.py`)

Strings are modelled as Lean `String`s; character classification and
case conversion operate on Unicode code points, matching the ASCII
behaviour of Python's `re` and `str.upper` on the character classes
involved (hex digits, `:`, `-`).
-/

namespace BtSec

/-! ## MAC helpers (`utils/helpers.py`) -/

/-- The regex character class `[0-9A-Fa-f]`. -/
def isHexDigitB (c : Char) : Bool :=
  (48 ≤ c.toNat && c.toNat ≤ 57) ||
  (65 ≤ c.toNat && c.toNat ≤ 70) ||
  (97 ≤ c.toNat && c.toNat ≤ 102)

/-- The regex character class `[:-]` (octet separators). -/
def isSepB (c : Char) : Bool := c == ':' || c == '-'

/-- Model of `validate_mac_address`: Python
`re.match(r"^([0-9A-Fa-f]{2}[:-]){5}([0-9A-Fa-f]{2})$", mac)`.
`re.match` anchors at the start and `$` also matches just before a
single trailing newline, so the accepted strings are 17 characters
(hh s hh s hh s hh s hh s hh) optionally followed by `\n`. -/
def validMacList : List Char → Bool
  | a :: b :: s1 :: c :: d :: s2 :: e :: f :: s3 :: g :: h :: s4 ::
    i :: j :: s5 :: k :: l :: rest =>
      isHexDigitB a && isHexDigitB b && isSepB s1 &&
      isHexDigitB c && isHexDigitB d && isSepB s2 &&
      isHexDigitB e && isHexDigitB f && isSepB s3 &&
      isHexDigitB g && isHexDigitB h && isSepB s4 &&
      isHexDigitB i && isHexDigitB j && isSepB s5 &&
      isHexDigitB k && isHexDigitB l &&
      (rest = [] || rest = ['\n'] : Bool)
  | _ => false

def validate_mac_address (mac : String) : Bool :=
  validMacList mac.toList

/-- Python `str.upper` restricted to one character; on the ASCII range
this maps `a`-`z` (97-122) to `A`-`Z`. -/
def upperChar (c : Char) : Char :=
  if 97 ≤ c.toNat && c.toNat ≤ 122 then Char.ofNat (c.toNat - 32) else c

/-- Model of `cleaned[i : i + 2]` (Python slicing truncates). -/
def slice2 (cs : List Char) (i : Nat) : List Char :=
  (cs.drop i).take 2

/-- Model of `normalize_mac_address` on the character list:
`mac.replace(":", "").replace("-", "").upper()` followed by
`":".join(cleaned[i : i + 2] for i in range(0, 12, 2))`. -/
def normalizeMacList (cs : List Char) : List Char :=
  let cleaned := (cs.filter (fun c => !(c == ':' || c == '-'))).map upperChar
  List.intercalate [':']
    [slice2 cleaned 0, slice2 cleaned 2, slice2 cleaned 4,
     slice2 cleaned 6, slice2 cleaned 8, slice2 cleaned 10]

def normalize_mac_address (mac : String) : String :=
  String.mk (normalizeMacList mac.toList)

/-- Characters of the canonical (normalized) output alphabet other
than the colon: uppercase hex digits. -/
def isUpperHexB (c : Char) : Bool :=
  (48 ≤ c.toNat && c.toNat ≤ 57) || (65 ≤ c.toNat && c.toNat ≤ 70)

/-- Model of `parse_bluetooth_class` output record. -/
structure ClassParsed where
  majorClass : String
  majorCode : Nat
  minorCode : Nat
  serviceCode : Nat
  deriving DecidableEq, Repr

def majorClassName (major : Nat) : String :=
  if major = 0x00 then "Miscellaneous"
  else if major = 0x01 then "Computer"
  else if major = 0x02 then "Phone"
  else if major = 0x03 then "LAN/Network Access Point"
  else if major = 0x04 then "Audio/Video"
  else if major = 0x05 then "Peripheral"
  else if major = 0x06 then "Imaging"
  else if major = 0x07 then "Wearable"
  else if major = 0x08 then "Toy"
  else if major = 0x09 then "Health"
  else if major = 0x1F then "Uncategorized"
  else "Unknown"

def parse_bluetooth_class (deviceClass : Nat) : ClassParsed :=
  let major := (deviceClass >>> 8) &&& 0x1F
  let minor := (deviceClass >>> 2) &&& 0x3F
  let service := (deviceClass >>> 13) &&& 0x7FF
  { majorClass := majorClassName major
    majorCode := major
    minorCode := minor
    serviceCode := service }

/-! ## Device discovery fusion engine (`modules/scanning/bluetooth_scanner.py`)

`self.devices_found` is a Python dict keyed by normalized MAC; modelled
as an insertion-ordered association list.  Thread interleaving inside a
concurrent scan is modelled by applying an explicit list of sightings
(the order in which the two discovery routines' writes land). -/

/-- Python dict assignment `d[k] = v` on an insertion-ordered
association list: replace in place if present, else append. -/
def assocSet {V : Type} (l : List (String × V)) (k : String) (v : V) :
    List (String × V) :=
  match l with
  | [] => [(k, v)]
  | (k', v') :: rest =>
      if k' = k then (k, v) :: rest else (k', v') :: assocSet rest k v

/-- Python dict lookup `d.get(k)`. -/
def assocGet {V : Type} (l : List (String × V)) (k : String) : Option V :=
  match l with
  | [] => none
  | (k', v') :: rest => if k' = k then some v' else assocGet rest k

/-- Python `del d[k]`. -/
def assocDel {V : Type} (l : List (String × V)) (k : String) :
    List (String × V) :=
  match l with
  | [] => []
  | (k', v') :: rest =>
      if k' = k then rest else (k', v') :: assocDel rest k

/-- Opaque BLE advertisement metadata (key/value pairs). -/
abbrev BleMeta := List (String × String)

/-- One entry of `self.devices_found`.  The Python value is a dict;
fields that a given discovery path does not set are `none`. -/
structure DeviceRecord where
  mac : String
  name : String
  modality : String
  deviceClass : Option Nat := none
  deviceClassParsed : Option ClassParsed := none
  rssi : Option Int := none
  discoveredAt : Nat := 0
  metadata : Option BleMeta := none
  bleMetadata : Option BleMeta := none
  deriving DecidableEq, Repr

abbrev Registry := List (String × DeviceRecord)

/-- Python dict assignment `d[k] = v` on the registry. -/
def regInsert (reg : Registry) (k : String) (v : DeviceRecord) : Registry :=
  assocSet reg k v

/-- Python dict lookup `d.get(k)` on the registry. -/
def regLookup (reg : Registry) (k : String) : Option DeviceRecord :=
  assocGet reg k

def regKeys (reg : Registry) : List String := reg.map Prod.fst

def regValues (reg : Registry) : List DeviceRecord := reg.map Prod.snd

/-- One classic inquiry-scan sighting `(addr, name, device_class)`;
`time` stands for `datetime.utcnow()` at processing. -/
structure ClassicSighting where
  addr : String
  name : Option String
  deviceClass : Nat
  time : Nat := 0
  deriving DecidableEq, Repr

/-- One BLE advertisement sighting (`device.address/name/rssi/metadata`). -/
structure BleSighting where
  address : String
  name : Option String
  rssi : Int
  metadata : BleMeta := []
  time : Nat := 0
  deriving DecidableEq, Repr

/-- Python `name or "Unknown"` (`None` and `""` are falsy). -/
def nameOrUnknown (n : Option String) : String :=
  match n with
  | none => "Unknown"
  | some s => if s = "" then "Unknown" else s

/-- The `device_info` dict built in `_scan_classic` for one sighting. -/
def classicRecord (s : ClassicSighting) : DeviceRecord :=
  { mac := normalize_mac_address s.addr
    name := nameOrUnknown s.name
    modality := "classic"
    deviceClass := some s.deviceClass
    deviceClassParsed := some (parse_bluetooth_class s.deviceClass)
    discoveredAt := s.time
    rssi := none }

/-- The `device_info` dict built in `_async_ble_scan` for one sighting. -/
def bleRecord (s : BleSighting) : DeviceRecord :=
  { mac := normalize_mac_address s.address
    name := nameOrUnknown s.name
    modality := "ble"
    rssi := some s.rssi
    discoveredAt := s.time
    metadata := some s.metadata }

/-- Model of `_scan_classic` body for one sighting:
`self.devices_found[device_info["mac"]] = device_info`
(unconditional overwrite — no merge on this path). -/
def applyClassicSighting (reg : Registry) (s : ClassicSighting) : Registry :=
  regInsert reg (normalize_mac_address s.addr) (classicRecord s)

/-- Model of `_async_ble_scan` body for one sighting: if the MAC is already
present, promote `type` to `"classic+ble"`, overwrite `rssi` and attach
`ble_metadata`; otherwise insert the fresh BLE record. -/
def applyBleSighting (reg : Registry) (s : BleSighting) : Registry :=
  let mac := normalize_mac_address s.address
  match regLookup reg mac with
  | some r =>
      regInsert reg mac
        { r with modality := "classic+ble"
                 rssi := some s.rssi
                 bleMetadata := some s.metadata }
  | none => regInsert reg mac (bleRecord s)

/-- A sighting arriving at the shared registry from either routine. -/
inductive Sighting where
  | classic (s : ClassicSighting)
  | ble (s : BleSighting)
  deriving DecidableEq, Repr

def Sighting.mac : Sighting → String
  | .classic s => normalize_mac_address s.addr
  | .ble s => normalize_mac_address s.address

def applySighting (reg : Registry) (e : Sighting) : Registry :=
  match e with
  | .classic s => applyClassicSighting reg s
  | .ble s => applyBleSighting reg s

/-- Applying an interleaved arrival order of sightings to the registry. -/
def applySightings (reg : Registry) (es : List Sighting) : Registry :=
  es.foldl applySighting reg

/-- The environment one `scan` call runs in: which optional libraries
are importable, whether a discovery routine raises, and the sightings
each source would report.  An exception in a routine is raised by the
underlying `discover` call, before any sighting is processed. -/
structure ScanEnv where
  classicAvailable : Bool := true
  bleAvailable : Bool := true
  classicError : Bool := false
  bleError : Bool := false
  classicSightings : List ClassicSighting := []
  bleSightings : List BleSighting := []

/-- Model of `_scan_classic`: returns the updated shared registry and the
routine's own `devices` list (one append per sighting). -/
def scanClassic (reg : Registry) (env : ScanEnv) :
    Registry × List DeviceRecord :=
  if env.classicAvailable = false then (reg, [])
  else if env.classicError then (reg, [])
  else
    env.classicSightings.foldl
      (fun acc s => (applyClassicSighting acc.1 s, acc.2 ++ [classicRecord s]))
      (reg, [])

/-- Model of `_scan_ble` / `_async_ble_scan`: the routine's `devices` list only
collects sightings whose MAC was not already in the registry. -/
def scanBle (reg : Registry) (env : ScanEnv) :
    Registry × List DeviceRecord :=
  if env.bleAvailable = false then (reg, [])
  else if env.bleError then (reg, [])
  else
    env.bleSightings.foldl
      (fun acc s =>
        let mac := normalize_mac_address s.address
        match regLookup acc.1 mac with
        | some _ => (applyBleSighting acc.1 s, acc.2)
        | none => (applyBleSighting acc.1 s, acc.2 ++ [bleRecord s]))
      (reg, [])

/-- Model of `BluetoothScanner.scan`: clears the scan-scoped registry, runs the
enabled discovery routines and returns `list(self.devices_found.values())`.
In the concurrent branch the two routines' writes interleave; the model
applies classic then BLE (claim-level interleavings are analysed through
`applySightings` over arbitrary orders). -/
def scan (duration : Nat) (classic ble concurrent : Bool) (env : ScanEnv) :
    Registry × List DeviceRecord :=
  if concurrent && classic && ble then
    let (r1, _) := scanClassic [] env
    let (r2, _) := scanBle r1 env
    (r2, regValues r2)
  else
    let (r1, _) := if classic then scanClassic [] env else ([], [])
    let (r2, _) := if ble then scanBle r1 env else (r1, [])
    (r2, regValues r2)

/-- Outcome of `enumerate_services` (the external SDP/GATT walks are
represented by the dispatch decision they start from). -/
inductive EnumOutcome where
  | invalidMac (mac : String)
  | notFound (mac : String)
  | classicEnum (mac : String)
  | bleEnum (mac : String)
  | unknownType (t : String)
  deriving DecidableEq, Repr

/-- Modality dispatch at the end of `enumerate_services`:
`if "classic" in device_type: ... elif device_type == "ble": ...`. -/
def enumDispatch (mac : String) (d : DeviceRecord) : EnumOutcome :=
  if "classic".toList <:+: d.modality.toList then .classicEnum mac
  else if d.modality = "ble" then .bleEnum mac
  else .unknownType d.modality

/-- Model of `enumerate_services`: validate, look up the registry, on a miss do
one 5-second rescan (`self.scan(duration=5)` with default flags) and
look up again.  Returns the final registry, the outcome and the number
of rescans performed. -/
def enumerate_services (reg : Registry) (macAddress : String)
    (rescanEnv : ScanEnv) : Registry × EnumOutcome × Nat :=
  if validate_mac_address macAddress = false then
    (reg, .invalidMac macAddress, 0)
  else
    let mac := normalize_mac_address macAddress
    match regLookup reg mac with
    | some d => (reg, enumDispatch mac d, 0)
    | none =>
        let (reg', _) := scan 5 true true true rescanEnv
        match regLookup reg' mac with
        | some d => (reg', enumDispatch mac d, 1)
        | none => (reg', .notFound mac, 1)

/-! ## Privileged execution gateway (`utils/privileges.py`) -/

/-- Behaviour of the external command a `subprocess.run` call would
execute: how many seconds the child needs, its exit data, and whether
the runtime raises a non-timeout exception instead. -/
structure CmdBehavior where
  duration : Nat
  exitCode : Int
  stdout : String
  stderr : String
  raisesMsg : Option String := none
  deriving DecidableEq, Repr

/-- Result of `PrivilegeManager._execute_command`: either the
`(returncode, stdout, stderr)` tuple or a raised `PrivilegeError`
carrying its message. -/
inductive ExecResult where
  | ok (exitCode : Int) (stdout stderr : String)
  | privilegeError (msg : String)
  deriving DecidableEq, Repr

/-- Rendering of `str(subprocess.TimeoutExpired)` for the command. -/
def timeoutDetail (command : List String) : String :=
  "Command '" ++ String.intercalate " " command ++
    "' timed out after 60 seconds"

/-- Model of `_execute_command`: `subprocess.run(command, timeout=60)`;
`TimeoutExpired` becomes `PrivilegeError("Command timed out: ...")`,
any other exception becomes
`PrivilegeError("Command execution failed: ...")`. -/
def _execute_command (command : List String) (beh : CmdBehavior) :
    ExecResult :=
  match beh.raisesMsg with
  | some m => .privilegeError ("Command execution failed: " ++ m)
  | none =>
      if 60 < beh.duration then
        .privilegeError ("Command timed out: " ++ timeoutDetail command)
      else
        .ok beh.exitCode beh.stdout beh.stderr

/-- A result classified as a timeout failure: a `PrivilegeError` whose
message is the timed-out rendering. -/
def TimeoutClassified (r : ExecResult) : Prop :=
  ∃ d, r = .privilegeError ("Command timed out: " ++ d)

/-- A result classified as a generic execution failure. -/
def GenericFailureClassified (r : ExecResult) : Prop :=
  ∃ d, r = .privilegeError ("Command execution failed: " ++ d)

/-- A result that is a plain `(returncode, stdout, stderr)` tuple. -/
def IsExitResult (r : ExecResult) : Prop :=
  ∃ c o e, r = .ok c o e

/-! ## Attack execution core (`modules/attacks/attack_simulator.py`)

Times (`datetime.utcnow()` / `time.time()`) are inputs from the
environment; the model threads them as explicit `Nat` arguments and the
same submission instant is used for the registered attack id and for
the id the procedures recompute from `result.start_time` (a UTC system,
where the two coincide).  The single external stop request of a run is
scheduled by an explicit `StopSchedule` naming the point at which
`stop_attack` lands relative to the procedure's steps. -/

inductive AttackType where
  | dosFlood | dosJam | deauth | hijack | pinBrute | mitm | sniff
  deriving DecidableEq, Repr

/-- Model of `AttackType.value` strings. -/
def AttackType.val : AttackType → String
  | .dosFlood => "dos_flood"
  | .dosJam => "dos_jam"
  | .deauth => "deauthentication"
  | .hijack => "hijacking"
  | .pinBrute => "pin_bruteforce"
  | .mitm => "man_in_the_middle"
  | .sniff => "passive_sniffing"

/-- Model of `str(attack_type)` as rendered into the unknown-type message. -/
def AttackType.pyName : AttackType → String
  | .dosFlood => "AttackType.DOS_FLOOD"
  | .dosJam => "AttackType.DOS_JAM"
  | .deauth => "AttackType.DEAUTH"
  | .hijack => "AttackType.HIJACK"
  | .pinBrute => "AttackType.PIN_BRUTE"
  | .mitm => "AttackType.MITM"
  | .sniff => "AttackType.SNIFF"

inductive AttackStatus where
  | pending | running | success | failed | stopped
  deriving DecidableEq, Repr

/-- The `{Success, Failed, Stopped}` terminal states of the machine. -/
def AttackStatus.isTerminal : AttackStatus → Bool
  | .success | .failed | .stopped => true
  | _ => false

/-- Values stored in an `AttackResult.details` map. -/
inductive DVal where
  | nat (n : Nat)
  | bool (b : Bool)
  | str (s : String)
  deriving DecidableEq, Repr

/-- Model of `AttackResult`.  `endWrites` counts how many times `end_time` was
assigned (the spec's "end-time is only ever set once" is about this
count); `endTime` holds the last value written. -/
structure AttackResult where
  attackType : AttackType
  target : String
  status : AttackStatus
  startTime : Nat
  endTime : Option Nat := none
  endWrites : Nat := 0
  details : List (String × DVal) := []
  errors : List String := []
  deriving DecidableEq, Repr

/-- Model of `self.details.update(details)` (`if details:` guards the update). -/
def detailsUpdate (d new : List (String × DVal)) : List (String × DVal) :=
  if new = [] then d else new.foldl (fun acc kv => assocSet acc kv.1 kv.2) d

def mark_success (r : AttackResult) (now : Nat)
    (details : List (String × DVal)) : AttackResult :=
  { r with status := .success, endTime := some now,
           endWrites := r.endWrites + 1,
           details := detailsUpdate r.details details }

def mark_failed (r : AttackResult) (now : Nat) (error : String) :
    AttackResult :=
  { r with status := .failed, endTime := some now,
           endWrites := r.endWrites + 1,
           errors := r.errors ++ [error] }

def mark_stopped (r : AttackResult) (now : Nat) : AttackResult :=
  { r with status := .stopped, endTime := some now,
           endWrites := r.endWrites + 1 }

/-- Model of `AttackSimulator`'s mutable tables: `self.active_attacks` and
`self._stop_flags` (a flag's value is `Event.is_set()`). -/
structure SimState where
  activeAttacks : List (String × AttackResult) := []
  stopFlags : List (String × Bool) := []
  deriving DecidableEq, Repr

/-- Model of `stop_attack`: if a stop flag is registered for the id, set it and
`mark_stopped` the active task (unconditionally — no terminal-status
check), returning `True`; otherwise return `False` untouched. -/
def stop_attack (st : SimState) (attackId : String) (now : Nat) :
    SimState × Bool :=
  match assocGet st.stopFlags attackId with
  | some _ =>
      let st1 := { st with stopFlags := assocSet st.stopFlags attackId true }
      let st2 :=
        match assocGet st1.activeAttacks attackId with
        | some r =>
            { st1 with activeAttacks :=
                assocSet st1.activeAttacks attackId (mark_stopped r now) }
        | none => st1
      (st2, true)
  | none => (st, false)

/-- Where the run's single external `stop_attack` call lands:
at the loop boundary after `k` completed iterations of a polling
procedure (a boundary that is never reached means the request arrives
only after cleanup), between the procedure's return and the `finally`
cleanup, after cleanup, or never. -/
inductive StopSchedule where
  | never
  | atIter (k : Nat)
  | afterProc
  | afterCleanup
  deriving DecidableEq, Repr

/-- The procedure-visible task state: the result object (aliased by
`active_attacks[attack_id]` in the source) plus the task's stop flag. -/
structure ProcState where
  res : AttackResult
  flagPresent : Bool
  flagSet : Bool
  deriving DecidableEq, Repr

/-- Effect of the external `stop_attack` landing at this point: it only
does anything while the flag is still registered. -/
def fireStop (ps : ProcState) (tStop : Nat) : ProcState :=
  if ps.flagPresent then
    { ps with flagSet := true, res := mark_stopped ps.res tStop }
  else ps

/-- Model of `params` dict with the defaults the procedures read
(`params.get("max_attempts", 1000)` etc.). -/
structure AttackParams where
  maxAttempts : Nat := 1000
  startPin : Nat := 0
  count : Nat := 100
  size : Nat := 600
  timeout : Nat := 1
  outputFile : Option String := none
  deriving DecidableEq, Repr

/-- The `for pin in range(...)` loop of `_pin_brute`: each iteration
increments `attempts`, then polls the stop flag and breaks if it is
set.  `iterDone` counts completed iterations; the scheduled stop fires
at its boundary.  Returns the task state and the final `attempts`. -/
def pinLoop (sched : StopSchedule) (tStop : Nat) :
    Nat → Nat → Nat → ProcState → ProcState × Nat
  | 0, iterDone, attempts, ps =>
      (if sched = .atIter iterDone then fireStop ps tStop else ps, attempts)
  | remaining + 1, iterDone, attempts, ps =>
      let ps := if sched = .atIter iterDone then fireStop ps tStop else ps
      let attempts := attempts + 1
      if ps.flagPresent && ps.flagSet then (ps, attempts)
      else pinLoop sched tStop remaining (iterDone + 1) attempts ps

/-- Model of `_pin_brute`: run the bounded PIN loop, then `mark_success` with
`{"attempts": attempts, "found": False}` — unconditionally, also after
a stop-flag break. -/
def pin_brute (params : AttackParams) (sched : StopSchedule)
    (tStop tEnd : Nat) (ps : ProcState) : ProcState :=
  let (ps1, attempts) := pinLoop sched tStop params.maxAttempts 0 0 ps
  let d : List (String × DVal) :=
    [("attempts", .nat attempts), ("found", .bool false)]
  { ps1 with res := mark_success ps1.res tEnd d }

/-- Model of `_dos_jam`: always fails. -/
def dos_jam (tEnd : Nat) (ps : ProcState) : ProcState :=
  let msg := "Jamming attack requires specialized hardware (not implemented)"
  { ps with res := mark_failed ps.res tEnd msg }

/-- Model of `_hijack`: always fails. -/
def hijack (tEnd : Nat) (ps : ProcState) : ProcState :=
  let msg := "Hijacking attack not fully implemented (requires MAC spoofing)"
  { ps with res := mark_failed ps.res tEnd msg }

/-- Outcome of one `execute_privileged` call: the
`(returncode, stdout, stderr)` tuple or a raised exception's message. -/
abbrev GatewayOutcome := Except String (Int × String × String)

/-- Model of `_deauth`: one `bluetoothctl disconnect` through the gateway. -/
def deauth (gw : GatewayOutcome) (tEnd : Nat) (ps : ProcState) :
    ProcState :=
  match gw with
  | .ok (retCode, _, stderr) =>
      if retCode = 0 then
        let d : List (String × DVal) :=
          [("method", .str "bluetoothctl_disconnect")]
        { ps with res := mark_success ps.res tEnd d }
      else
        { ps with res := mark_failed ps.res tEnd ("Bluetoothctl failed: " ++ stderr) }
  | .error e =>
      { ps with res := mark_failed ps.res tEnd e }

/-- Model of `_sniff`: one `tshark` capture through the gateway. -/
def sniff (params : AttackParams) (gw : GatewayOutcome)
    (now tEnd : Nat) (ps : ProcState) : ProcState :=
  let outputFile :=
    match params.outputFile with
    | some f => f
    | none => "captures/sniff_" ++ toString now ++ ".pcap"
  match gw with
  | .ok (retCode, _, stderr) =>
      if retCode = 0 then
        let d : List (String × DVal) := [("capture_file", .str outputFile)]
        { ps with res := mark_success ps.res tEnd d }
      else
        { ps with res := mark_failed ps.res tEnd ("tshark failed: " ++ stderr) }
  | .error e =>
      { ps with res := mark_failed ps.res tEnd e }

/-- The `while True` probe loop of `_dos_flood`.  `probes i` is the
gateway outcome of the `i`-th `l2ping`, `elapsed i` the wall-clock
seconds at the `i`-th duration check.  The Python loop is unbounded
when no duration is given and no stop arrives; `fuel` bounds the model
(`none` marks the diverging case, which no claim exercises). -/
def dosFloodLoop (sched : StopSchedule) (tStop : Nat)
    (duration : Option Nat) (elapsed : Nat → Nat)
    (probes : Nat → GatewayOutcome) :
    Nat → Nat → Nat → Nat → ProcState → Option (ProcState × Nat × Nat)
  | 0, _, _, _, _ => none
  | fuel + 1, iterDone, packets, errs, ps =>
      let ps := if sched = .atIter iterDone then fireStop ps tStop else ps
      if ps.flagPresent && ps.flagSet then some (ps, packets, errs)
      else if (match duration with
               | some d => decide (0 < d ∧ d ≤ elapsed iterDone)
               | none => false) then
        some (ps, packets, errs)
      else
        match probes iterDone with
        | .ok (retCode, _, _) =>
            if retCode = 0 then
              dosFloodLoop sched tStop duration elapsed probes fuel
                (iterDone + 1) (packets + 1) errs ps
            else
              dosFloodLoop sched tStop duration elapsed probes fuel
                (iterDone + 1) packets (errs + 1) ps
        | .error _ =>
            dosFloodLoop sched tStop duration elapsed probes fuel
              (iterDone + 1) packets (errs + 1) ps

/-- Model of `_dos_flood`: probe loop, then (in `finally`) `mark_success` with
the probe accounting — the task always ends successful. -/
def dos_flood (sched : StopSchedule) (tStop : Nat)
    (duration : Option Nat) (elapsed : Nat → Nat)
    (probes : Nat → GatewayOutcome) (fuel tEnd : Nat) (ps : ProcState) :
    Option ProcState :=
  match dosFloodLoop sched tStop duration elapsed probes fuel 0 0 0 ps with
  | none => none
  | some (ps1, packets, errs) =>
      let d : List (String × DVal) :=
        [("packets_sent", .nat packets), ("errors", .nat errs)]
      some { ps1 with res := mark_success ps1.res tEnd d }

/-- Environment of one `execute_attack` run: the stop-request schedule,
the instants the marks would read from the clock, the gateway's
behaviour and the flood-loop time oracle. -/
structure AttackEnv where
  sched : StopSchedule := .never
  tStop : Nat := 0
  tEnd : Nat := 0
  gateway : Nat → GatewayOutcome := fun _ => .ok (0, "", "")
  elapsed : Nat → Nat := fun i => i
  floodFuel : Nat := 1000

/-- Dispatch to the kind-specific procedure (the `if/elif` chain of
`execute_attack`); `MITM` falls through to the unknown-type arm.
`none` is the diverging unbounded `_dos_flood` case. -/
def runProcedure (attackType : AttackType) (duration : Option Nat)
    (params : AttackParams) (env : AttackEnv) (now : Nat)
    (ps : ProcState) : Option ProcState :=
  match attackType with
  | .dosFlood =>
      dos_flood env.sched env.tStop duration env.elapsed env.gateway
        env.floodFuel env.tEnd ps
  | .dosJam => some (dos_jam env.tEnd ps)
  | .deauth => some (deauth (env.gateway 0) env.tEnd ps)
  | .hijack => some (hijack env.tEnd ps)
  | .pinBrute => some (pin_brute params env.sched env.tStop env.tEnd ps)
  | .sniff => some (sniff params (env.gateway 0) now env.tEnd ps)
  | .mitm =>
      let msg := "Unknown attack type: " ++ AttackType.pyName .mitm
      some { ps with res := mark_failed ps.res env.tEnd msg }

/-- Model of `execute_attack`: validate the target MAC (fail fast, no state
touched), create and register the task, set it `Running`, run the
procedure with the scheduled stop request, then clean up the stop flag
in `finally` (`active_attacks` keeps the terminal record).  A stop
request scheduled after cleanup finds no flag and does nothing. -/
def execute_attack (st : SimState) (attackType : AttackType)
    (target : String) (duration : Option Nat) (params : AttackParams)
    (env : AttackEnv) (now : Nat) :
    SimState × Except String (Option AttackResult) :=
  if validate_mac_address target = false then
    (st, .error ("Invalid target MAC address: " ++ target))
  else
    let res0 : AttackResult :=
      { attackType := attackType, target := target,
        status := .pending, startTime := now }
    let attackId := attackType.val ++ "_" ++ target ++ "_" ++ toString now
    let st1 : SimState :=
      { st with activeAttacks := assocSet st.activeAttacks attackId res0,
                stopFlags := assocSet st.stopFlags attackId false }
    let ps0 : ProcState :=
      { res := { res0 with status := .running },
        flagPresent := true, flagSet := false }
    match runProcedure attackType duration params env now ps0 with
    | none => (st1, .ok none)
    | some ps1 =>
        let ps2 := if env.sched = .afterProc then fireStop ps1 env.tStop
                   else ps1
        let st2 : SimState :=
          { st1 with
              stopFlags := assocDel st1.stopFlags attackId,
              activeAttacks := assocSet st1.activeAttacks attackId ps2.res }
        (st2, .ok (some ps2.res))

/-- A sequence of external `stop_attack` calls for the same id (the
only operation the core exposes once `execute_attack` has returned). -/
def stopMany (st : SimState) (attackId : String) (times : List Nat) :
    SimState :=
  times.foldl (fun s t => (stop_attack s attackId t).1) st

/-- The spec's PIN-bruteforce scenario: `max_attempts=50` against a
valid target on a fresh simulator, with the run's single stop request
landing at `sched`. -/
def pinBruteRun50 (sched : StopSchedule) (tStop tEnd : Nat) :
    Option AttackResult :=
  match (execute_attack {} .pinBrute "AA:BB:CC:DD:EE:FF" none
      { maxAttempts := 50 }
      { sched := sched, tStop := tStop, tEnd := tEnd } 0).2 with
  | .ok r => r
  | .error _ => none

/-- The outcome the code actually produces in that scenario (the
amended claim): the stop request is effective iff it lands while the
stop flag is registered; an effective in-loop or post-loop stop is
overwritten by the procedure's unconditional `mark_success` (status
`success`, end-time written twice); only a stop landing between the
procedure's return and cleanup leaves status `stopped`. -/
def pinBrute50Expected (sched : StopSchedule) (tStop tEnd : Nat) :
    AttackResult :=
  let base : AttackResult :=
    { attackType := .pinBrute, target := "AA:BB:CC:DD:EE:FF",
      status := .success, startTime := 0, endTime := some tEnd,
      endWrites := 1,
      details := [("attempts", .nat 50), ("found", .bool false)],
      errors := [] }
  match sched with
  | .never => base
  | .afterCleanup => base
  | .atIter k =>
      if k ≤ 50 then
        { base with endWrites := 2,
                    details := [("attempts", .nat (min (k + 1) 50)),
                                ("found", .bool false)] }
      else base
  | .afterProc =>
      { base with status := .stopped, endTime := some tStop,
                  endWrites := 2 }

/-! ## Character-level helper lemmas for MAC normalization -/

theorem charToNatOfNat (n : Nat) (h : n.isValidChar) :
    (Char.ofNat n).toNat = n := by
  simp only [Char.ofNat, h, dif_pos]
  simp [Char.ofNatAux, Char.toNat, UInt32.toNat]

theorem upperChar_toNat (c : Char) :
    (upperChar c).toNat =
      if 97 ≤ c.toNat ∧ c.toNat ≤ 122 then c.toNat - 32 else c.toNat := by
  unfold upperChar
  by_cases h : 97 ≤ c.toNat ∧ c.toNat ≤ 122
  · have hb : (97 ≤ c.toNat && c.toNat ≤ 122) = true := by simp [h.1, h.2]
    rw [hb]
    simp only [if_pos h]
    exact charToNatOfNat _ (Or.inl (by omega))
  · have hb : (97 ≤ c.toNat && c.toNat ≤ 122) = false := by
      simp only [Bool.and_eq_false_iff]
      rcases Decidable.not_and_iff_or_not.mp h with h1 | h1
      · left; simpa using h1
      · right; simpa using h1
    rw [hb]
    simp [h]

theorem upperHex_of_hex (c : Char) (h : isHexDigitB c = true) :
    isUpperHexB (upperChar c) = true := by
  have ht := upperChar_toNat c
  simp only [isHexDigitB, Bool.or_eq_true, Bool.and_eq_true,
    decide_eq_true_eq] at h
  simp only [isUpperHexB, Bool.or_eq_true, Bool.and_eq_true,
    decide_eq_true_eq]
  by_cases h97 : 97 ≤ c.toNat ∧ c.toNat ≤ 122
  · rw [if_pos h97] at ht
    omega
  · rw [if_neg h97] at ht
    omega

theorem notSep_of_ranges (c : Char)
    (h : (48 ≤ c.toNat ∧ c.toNat ≤ 57) ∨ (65 ≤ c.toNat ∧ c.toNat ≤ 70) ∨
         (97 ≤ c.toNat ∧ c.toNat ≤ 102)) :
    (!(c == ':' || c == '-')) = true := by
  simp only [Bool.not_eq_true', Bool.or_eq_false_iff, beq_eq_false_iff_ne]
  constructor
  · intro he
    have : c.toNat = 58 := by rw [he]; decide
    omega
  · intro he
    have : c.toNat = 45 := by rw [he]; decide
    omega

theorem keep_of_hex (c : Char) (h : isHexDigitB c = true) :
    (!(c == ':' || c == '-')) = true := by
  apply notSep_of_ranges
  simpa only [isHexDigitB, Bool.or_eq_true, Bool.and_eq_true,
    decide_eq_true_eq, or_assoc] using h

theorem keep_of_upperHex (c : Char) (h : isUpperHexB c = true) :
    (!(c == ':' || c == '-')) = true := by
  apply notSep_of_ranges
  simp only [isUpperHexB, Bool.or_eq_true, Bool.and_eq_true,
    decide_eq_true_eq] at h
  tauto

theorem upperChar_fix (c : Char) (h : isUpperHexB c = true) :
    upperChar c = c := by
  simp only [isUpperHexB, Bool.or_eq_true, Bool.and_eq_true,
    decide_eq_true_eq] at h
  unfold upperChar
  have hb : (97 ≤ c.toNat && c.toNat ≤ 122) = false := by
    simp only [Bool.and_eq_false_iff]
    left
    simp only [decide_eq_false_iff_not]
    omega
  rw [hb]
  simp

theorem drop_of_sep (c : Char) (h : isSepB c = true) :
    (!(c == ':' || c == '-')) = false := by
  simp only [isSepB] at h
  simp [h]

theorem norm_shape (a b s1 c d s2 e f s3 g h2 s4 i j s5 k l : Char)
    (rest : List Char)
    (ha : isHexDigitB a = true) (hb : isHexDigitB b = true)
    (hs1 : isSepB s1 = true)
    (hc : isHexDigitB c = true) (hd : isHexDigitB d = true)
    (hs2 : isSepB s2 = true)
    (he : isHexDigitB e = true) (hf : isHexDigitB f = true)
    (hs3 : isSepB s3 = true)
    (hg : isHexDigitB g = true) (hh : isHexDigitB h2 = true)
    (hs4 : isSepB s4 = true)
    (hi : isHexDigitB i = true) (hj : isHexDigitB j = true)
    (hs5 : isSepB s5 = true)
    (hk : isHexDigitB k = true) (hl : isHexDigitB l = true)
    (hrest : rest = [] ∨ rest = ['\n']) :
    normalizeMacList (a :: b :: s1 :: c :: d :: s2 :: e :: f :: s3 ::
      g :: h2 :: s4 :: i :: j :: s5 :: k :: l :: rest) =
      [upperChar a, upperChar b, ':', upperChar c, upperChar d, ':',
       upperChar e, upperChar f, ':', upperChar g, upperChar h2, ':',
       upperChar i, upperChar j, ':', upperChar k, upperChar l] := by
  have hfil : (a :: b :: s1 :: c :: d :: s2 :: e :: f :: s3 ::
      g :: h2 :: s4 :: i :: j :: s5 :: k :: l :: rest).filter
        (fun c => !(c == ':' || c == '-')) =
      a :: b :: c :: d :: e :: f :: g :: h2 :: i :: j :: k :: l ::
        rest.filter (fun c => !(c == ':' || c == '-')) := by
    simp only [List.filter_cons, keep_of_hex _ ha, keep_of_hex _ hb,
      keep_of_hex _ hc, keep_of_hex _ hd, keep_of_hex _ he,
      keep_of_hex _ hf, keep_of_hex _ hg, keep_of_hex _ hh,
      keep_of_hex _ hi, keep_of_hex _ hj, keep_of_hex _ hk,
      keep_of_hex _ hl, drop_of_sep _ hs1, drop_of_sep _ hs2,
      drop_of_sep _ hs3, drop_of_sep _ hs4, drop_of_sep _ hs5]
    simp
  unfold normalizeMacList
  rw [hfil]
  rcases hrest with hr | hr <;> subst hr <;>
    simp [slice2, List.intercalate, List.intersperse]

theorem renorm_canonical (u0 u1 u2 u3 u4 u5 u6 u7 u8 u9 u10 u11 : Char)
    (h0 : isUpperHexB u0 = true) (h1 : isUpperHexB u1 = true)
    (h2 : isUpperHexB u2 = true) (h3 : isUpperHexB u3 = true)
    (h4 : isUpperHexB u4 = true) (h5 : isUpperHexB u5 = true)
    (h6 : isUpperHexB u6 = true) (h7 : isUpperHexB u7 = true)
    (h8 : isUpperHexB u8 = true) (h9 : isUpperHexB u9 = true)
    (h10 : isUpperHexB u10 = true) (h11 : isUpperHexB u11 = true) :
    normalizeMacList
      [u0, u1, ':', u2, u3, ':', u4, u5, ':', u6, u7, ':', u8, u9, ':',
       u10, u11] =
      [u0, u1, ':', u2, u3, ':', u4, u5, ':', u6, u7, ':', u8, u9, ':',
       u10, u11] := by
  have hfil : ([u0, u1, ':', u2, u3, ':', u4, u5, ':', u6, u7, ':',
      u8, u9, ':', u10, u11]).filter (fun c => !(c == ':' || c == '-')) =
      [u0, u1, u2, u3, u4, u5, u6, u7, u8, u9, u10, u11] := by
    simp only [List.filter_cons, keep_of_upperHex _ h0,
      keep_of_upperHex _ h1, keep_of_upperHex _ h2, keep_of_upperHex _ h3,
      keep_of_upperHex _ h4, keep_of_upperHex _ h5, keep_of_upperHex _ h6,
      keep_of_upperHex _ h7, keep_of_upperHex _ h8, keep_of_upperHex _ h9,
      keep_of_upperHex _ h10, keep_of_upperHex _ h11]
    simp
  unfold normalizeMacList
  rw [hfil]
  simp only [List.map_cons, List.map_nil, upperChar_fix _ h0,
    upperChar_fix _ h1, upperChar_fix _ h2, upperChar_fix _ h3,
    upperChar_fix _ h4, upperChar_fix _ h5, upperChar_fix _ h6,
    upperChar_fix _ h7, upperChar_fix _ h8, upperChar_fix _ h9,
    upperChar_fix _ h10, upperChar_fix _ h11]
  simp [slice2, List.intercalate, List.intersperse]

theorem norm_idem_list (cs : List Char) (h : validMacList cs = true) :
    normalizeMacList (normalizeMacList cs) = normalizeMacList cs := by
  rcases cs with _ | ⟨a, cs⟩
  · exact Bool.noConfusion h
  rcases cs with _ | ⟨b, cs⟩
  · exact Bool.noConfusion h
  rcases cs with _ | ⟨s1, cs⟩
  · exact Bool.noConfusion h
  rcases cs with _ | ⟨c, cs⟩
  · exact Bool.noConfusion h
  rcases cs with _ | ⟨d, cs⟩
  · exact Bool.noConfusion h
  rcases cs with _ | ⟨s2, cs⟩
  · exact Bool.noConfusion h
  rcases cs with _ | ⟨e, cs⟩
  · exact Bool.noConfusion h
  rcases cs with _ | ⟨f, cs⟩
  · exact Bool.noConfusion h
  rcases cs with _ | ⟨s3, cs⟩
  · exact Bool.noConfusion h
  rcases cs with _ | ⟨g, cs⟩
  · exact Bool.noConfusion h
  rcases cs with _ | ⟨h2, cs⟩
  · exact Bool.noConfusion h
  rcases cs with _ | ⟨s4, cs⟩
  · exact Bool.noConfusion h
  rcases cs with _ | ⟨i, cs⟩
  · exact Bool.noConfusion h
  rcases cs with _ | ⟨j, cs⟩
  · exact Bool.noConfusion h
  rcases cs with _ | ⟨s5, cs⟩
  · exact Bool.noConfusion h
  rcases cs with _ | ⟨k, cs⟩
  · exact Bool.noConfusion h
  rcases cs with _ | ⟨l, rest⟩
  · exact Bool.noConfusion h
  simp only [validMacList, Bool.and_eq_true] at h
  obtain ⟨⟨⟨⟨⟨⟨⟨⟨⟨⟨⟨⟨⟨⟨⟨⟨⟨ha, hb⟩, hs1⟩, hc⟩, hd⟩, hs2⟩, he⟩, hf⟩,
    hs3⟩, hg⟩, hh⟩, hs4⟩, hi⟩, hj⟩, hs5⟩, hk⟩, hl⟩, hrest⟩ := h
  have hrest' : rest = [] ∨ rest = ['\n'] := by
    simpa [Bool.or_eq_true, decide_eq_true_eq] using hrest
  rw [norm_shape a b s1 c d s2 e f s3 g h2 s4 i j s5 k l rest
    ha hb hs1 hc hd hs2 he hf hs3 hg hh hs4 hi hj hs5 hk hl hrest']
  exact renorm_canonical _ _ _ _ _ _ _ _ _ _ _ _
    (upperHex_of_hex _ ha) (upperHex_of_hex _ hb) (upperHex_of_hex _ hc)
    (upperHex_of_hex _ hd) (upperHex_of_hex _ he) (upperHex_of_hex _ hf)
    (upperHex_of_hex _ hg) (upperHex_of_hex _ hh) (upperHex_of_hex _ hi)
    (upperHex_of_hex _ hj) (upperHex_of_hex _ hk) (upperHex_of_hex _ hl)

/-- C6: for every string accepted by `validate_mac_address` (any
accepted separator or case form), `normalize_mac_address` is total (a
total Lean function by construction) and idempotent:
`normalize(normalize(x)) = normalize(x)`. -/
theorem normalize_mac_address_idempotent (mac : String)
    (h : validate_mac_address mac = true) :
    normalize_mac_address (normalize_mac_address mac) =
      normalize_mac_address mac := by
  unfold validate_mac_address at h
  unfold normalize_mac_address
  exact congrArg String.mk (norm_idem_list _ h)

/-- Witness for C6 at the concrete input `"aa-bb-cc-dd-ee-ff"`. -/
theorem normalize_mac_address_idempotent_witness :
    validate_mac_address "aa-bb-cc-dd-ee-ff" = true ∧
    normalize_mac_address (normalize_mac_address "aa-bb-cc-dd-ee-ff") =
      normalize_mac_address "aa-bb-cc-dd-ee-ff" :=
  ⟨by decide, normalize_mac_address_idempotent "aa-bb-cc-dd-ee-ff" (by decide)⟩

/-! ## Scanner theorems -/

/-- C9: `scan` with both classic and BLE discovery disabled returns an
empty device list (and an empty registry) without error, for every
duration, concurrency setting and environment. -/
theorem scan_both_disabled_empty (duration : Nat) (concurrent : Bool)
    (env : ScanEnv) :
    scan duration false false concurrent env = ([], []) := by
  cases concurrent <;> rfl

/-- C7: empty registry, classic sighting
`{AA:BB:CC:DD:EE:FF, "Phone", class 0x5A020C}` then BLE sighting
`{aa:bb:cc:dd:ee:ff, rssi -55}`: `scan` returns exactly one record
with mac `AA:BB:CC:DD:EE:FF`, modality `classic+ble`, rssi `-55` and
name `Phone` (the full record is pinned). -/
theorem scan_classic_then_ble_merges :
    (scan 10 true true false
      { classicSightings :=
          [{ addr := "AA:BB:CC:DD:EE:FF", name := some "Phone",
             deviceClass := 0x5A020C }],
        bleSightings :=
          [{ address := "aa:bb:cc:dd:ee:ff", name := none,
             rssi := -55 }] }).2 =
      [{ mac := "AA:BB:CC:DD:EE:FF", name := "Phone",
         modality := "classic+ble", deviceClass := some 0x5A020C,
         deviceClassParsed := some (parse_bluetooth_class 0x5A020C),
         rssi := some (-55), discoveredAt := 0, metadata := none,
         bleMetadata := some [] }] := by
  decide

/-- C8: enumerating a MAC absent from the registry performs exactly one
short rescan — if the MAC is still unknown afterwards the outcome is
the not-found error — and no call ever performs more than one rescan. -/
theorem enumerate_unknown_single_rescan :
    (∀ (reg : Registry) (mac : String) (env : ScanEnv),
        validate_mac_address mac = true →
        regLookup reg (normalize_mac_address mac) = none →
        (enumerate_services reg mac env).2.2 = 1 ∧
        (regLookup (scan 5 true true true env).1
            (normalize_mac_address mac) = none →
          (enumerate_services reg mac env).2.1 =
            .notFound (normalize_mac_address mac))) ∧
    (∀ (reg : Registry) (mac : String) (env : ScanEnv),
        (enumerate_services reg mac env).2.2 ≤ 1) := by
  constructor
  · intro reg mac env hv hmiss
    unfold enumerate_services
    rw [hv]
    simp only [Bool.true_eq_false, if_false, hmiss]
    rcases hs : scan 5 true true true env with ⟨reg2, devs⟩
    simp only [hs]
    cases hl : regLookup reg2 (normalize_mac_address mac)
    · simp only [hl]
      exact ⟨trivial, fun _ => trivial⟩
    · simp only [hl]
      refine ⟨trivial, ?_⟩
      intro h2
      exact Option.noConfusion h2
  · intro reg mac env
    unfold enumerate_services
    by_cases hv : validate_mac_address mac = false
    · rw [if_pos hv]
      simp
    · rw [if_neg hv]
      cases hmem : regLookup reg (normalize_mac_address mac)
      · simp only [hmem]
        rcases hs : scan 5 true true true env with ⟨reg2, devs⟩
        simp only [hs]
        cases hl : regLookup reg2 (normalize_mac_address mac) <;>
          simp [hl]
      · simp [hmem]

/-! ## PIN-bruteforce loop lemmas (C3) -/

theorem pinLoop_no_fire (sched : StopSchedule) (tStop : Nat)
    (remaining iterDone attempts : Nat) (ps : ProcState)
    (hflag : ps.flagSet = false)
    (hs : ∀ k, sched = .atIter k → iterDone + remaining < k) :
    pinLoop sched tStop remaining iterDone attempts ps =
      (ps, attempts + remaining) := by
  induction remaining generalizing iterDone attempts with
  | zero =>
      have hne : sched ≠ .atIter iterDone := by
        intro heq
        have := hs iterDone heq
        omega
      simp [pinLoop, hne]
  | succ r ih =>
      have hne : sched ≠ .atIter iterDone := by
        intro heq
        have := hs iterDone heq
        omega
      simp only [pinLoop, hne, if_neg, ite_false, hflag,
        Bool.and_false, Bool.false_eq_true]
      rw [ih (iterDone + 1) (attempts + 1)
        (fun k heq => by have := hs k heq; omega)]
      congr 1
      omega

theorem pinLoop_fire (k : Nat) (tStop : Nat)
    (remaining iterDone attempts : Nat) (ps : ProcState)
    (hflagP : ps.flagPresent = true) (hflag : ps.flagSet = false)
    (hk : iterDone ≤ k) :
    pinLoop (.atIter k) tStop remaining iterDone attempts ps =
      if k < iterDone + remaining then
        ({ ps with flagSet := true, res := mark_stopped ps.res tStop },
         attempts + (k - iterDone) + 1)
      else if k = iterDone + remaining then
        ({ ps with flagSet := true, res := mark_stopped ps.res tStop },
         attempts + remaining)
      else (ps, attempts + remaining) := by
  induction remaining generalizing iterDone attempts with
  | zero =>
      by_cases he : k = iterDone
      · subst he
        simp [pinLoop, fireStop, hflagP]
      · rw [pinLoop_no_fire _ _ _ _ _ _ hflag (fun k' heq => by
          cases heq; omega)]
        rw [if_neg (by omega), if_neg (by omega)]
  | succ r ih =>
      by_cases he : k = iterDone
      · subst he
        simp only [pinLoop, fireStop, hflagP]
        simp only [eq_self_iff_true, if_true, Bool.and_self]
        rw [if_pos (show k < k + (r + 1) by omega)]
        have harith : attempts + (k - k) + 1 = attempts + 1 := by omega
        rw [harith]
      · have hne : (StopSchedule.atIter k) ≠ .atIter iterDone := by
          intro heq
          cases heq
          omega
        simp only [pinLoop, hne, ite_false, hflag, Bool.and_false,
          Bool.false_eq_true, if_neg]
        rw [ih (iterDone + 1) (attempts + 1) (by omega)]
        by_cases h1 : k < iterDone + (r + 1)
        · rw [if_pos (by omega), if_pos h1]
          have : attempts + 1 + (k - (iterDone + 1)) + 1 =
              attempts + (k - iterDone) + 1 := by omega
          rw [this]
        · by_cases h2 : k = iterDone + (r + 1)
          · rw [if_neg (by omega), if_pos (by omega), if_neg h1,
              if_pos h2]
            congr 1
            omega
          · rw [if_neg (by omega), if_neg (by omega), if_neg h1,
              if_neg h2]
            congr 1
            omega

/-- Witness for C8: an unknown MAC on an empty registry with an empty
rescan environment ends in `notFound` after exactly one rescan. -/
theorem enumerate_unknown_single_rescan_witness :
    (enumerate_services [] "AA:BB:CC:DD:EE:FF" {}).2.2 = 1 ∧
    (enumerate_services [] "AA:BB:CC:DD:EE:FF" {}).2.1 =
      .notFound (normalize_mac_address "AA:BB:CC:DD:EE:FF") :=
  ⟨(enumerate_unknown_single_rescan.1 [] "AA:BB:CC:DD:EE:FF" {}
      (by decide) (by decide)).1,
   (enumerate_unknown_single_rescan.1 [] "AA:BB:CC:DD:EE:FF" {}
      (by decide) (by decide)).2 (by decide)⟩

/-! ## Registry merge lemmas (C1) -/

theorem assocGet_set_self {V : Type} (l : List (String × V)) (k : String)
    (v : V) : assocGet (assocSet l k v) k = some v := by
  induction l with
  | nil => simp [assocSet, assocGet]
  | cons hd tl ih =>
      obtain ⟨k', v'⟩ := hd
      by_cases hk : k' = k
      · simp [assocSet, assocGet, hk]
      · simp [assocSet, assocGet, hk, ih]

theorem assocSet_keys_singleton {V : Type} (l : List (String × V))
    (k : String) (v : V) (h : l.map Prod.fst = [k]) :
    (assocSet l k v).map Prod.fst = [k] := by
  cases l with
  | nil => simp at h
  | cons hd tl =>
      obtain ⟨k', v'⟩ := hd
      simp only [List.map_cons, List.cons.injEq] at h
      obtain ⟨hk, htl⟩ := h
      have htl' : tl = [] := by
        cases tl with
        | nil => rfl
        | cons a b => simp at htl
      subst hk htl'
      simp [assocSet]

theorem applySighting_keys_singleton (reg : Registry) (e : Sighting)
    (m : String) (hm : e.mac = m) (h : regKeys reg = [m]) :
    regKeys (applySighting reg e) = [m] := by
  cases e with
  | classic s =>
      simp only [Sighting.mac] at hm
      simp only [applySighting, applyClassicSighting, regInsert, hm]
      exact assocSet_keys_singleton reg m _ h
  | ble s =>
      simp only [Sighting.mac] at hm
      simp only [applySighting, applyBleSighting, hm]
      cases regLookup reg m with
      | none => exact assocSet_keys_singleton reg m _ h
      | some r => exact assocSet_keys_singleton reg m _ h

theorem applySighting_keys_empty (e : Sighting) (m : String)
    (hm : e.mac = m) : regKeys (applySighting [] e) = [m] := by
  cases e with
  | classic s =>
      simp only [Sighting.mac] at hm
      simp [applySighting, applyClassicSighting, regInsert, assocSet,
        regKeys, hm]
  | ble s =>
      simp only [Sighting.mac] at hm
      simp [applySighting, applyBleSighting, regLookup, regInsert,
        assocGet, assocSet, regKeys, hm]

theorem applySightings_keys_singleton (es : List Sighting)
    (reg : Registry) (m : String) (hall : ∀ x ∈ es, x.mac = m)
    (h : regKeys reg = [m]) :
    regKeys (applySightings reg es) = [m] := by
  induction es generalizing reg with
  | nil => exact h
  | cons e es ih =>
      have : applySightings reg (e :: es) =
          applySightings (applySighting reg e) es := rfl
      rw [this]
      exact ih (applySighting reg e)
        (fun x hx => hall x (List.mem_cons_of_mem _ hx))
        (applySighting_keys_singleton reg e m
          (hall e (List.mem_cons_self _ _)) h)

theorem applySightings_keys_nonempty (es : List Sighting) (m : String)
    (hne : es ≠ []) (hall : ∀ x ∈ es, x.mac = m) :
    regKeys (applySightings [] es) = [m] := by
  cases es with
  | nil => exact absurd rfl hne
  | cons e es =>
      have : applySightings [] (e :: es) =
          applySightings (applySighting [] e) es := rfl
      rw [this]
      exact applySightings_keys_singleton es _ m
        (fun x hx => hall x (List.mem_cons_of_mem _ hx))
        (applySighting_keys_empty e m (hall e (List.mem_cons_self _ _)))

theorem applySightings_concat (es : List Sighting) (e : Sighting)
    (reg : Registry) :
    applySightings reg (es ++ [e]) =
      applySighting (applySightings reg es) e := by
  simp [applySightings, List.foldl_append]

/-- C1 (amended): for every nonempty same-MAC interleaving the registry
holds exactly one record for that normalized MAC, but the merge is
asymmetric: a final classic sighting unconditionally overwrites the
record (modality `classic`, RSSI dropped), while a final BLE sighting
arriving on an existing record merges — modality `classic+ble`,
pre-existing name/device-class kept, incoming RSSI/metadata taken. -/
theorem fusion_merge_last_writer (events : List Sighting) (e : Sighting)
    (m : String) (h : ∀ x ∈ events ++ [e], x.mac = m) :
    regKeys (applySightings [] (events ++ [e])) = [m] ∧
    (∀ c, e = .classic c →
      regLookup (applySightings [] (events ++ [e])) m =
        some (classicRecord c)) ∧
    (∀ b r, e = .ble b →
      regLookup (applySightings [] events) m = some r →
      regLookup (applySightings [] (events ++ [e])) m =
        some { r with modality := "classic+ble", rssi := some b.rssi,
                      bleMetadata := some b.metadata }) ∧
    (∀ b, e = .ble b → events = [] →
      regLookup (applySightings [] (events ++ [e])) m =
        some (bleRecord b)) := by
  have hmac : e.mac = m := h e (by simp)
  refine ⟨?_, ?_, ?_, ?_⟩
  · exact applySightings_keys_nonempty _ m (by simp) h
  · intro c hc
    subst hc
    rw [applySightings_concat]
    simp only [Sighting.mac] at hmac
    simp only [applySighting, applyClassicSighting, regInsert, hmac]
    exact assocGet_set_self _ m _
  · intro b r hb hr
    subst hb
    rw [applySightings_concat]
    simp only [Sighting.mac] at hmac
    simp only [applySighting, applyBleSighting, hmac, hr, regInsert]
    exact assocGet_set_self _ m _
  · intro b hb hev
    subst hb hev
    simp only [Sighting.mac] at hmac
    simp only [applySightings, List.nil_append, List.foldl_cons,
      List.foldl_nil, applySighting, applyBleSighting, hmac]
    simp [regLookup, assocGet, assocSet]

/-- Witness for C1 (amended): classic-then-BLE on the same MAC. -/
theorem fusion_merge_last_writer_witness :
    regKeys (applySightings []
      ([.classic { addr := "AA:BB:CC:DD:EE:FF", name := some "Phone",
                   deviceClass := 0x5A020C }] ++
       [.ble { address := "aa:bb:cc:dd:ee:ff", name := none,
               rssi := -55 }])) = ["AA:BB:CC:DD:EE:FF"] ∧
    regLookup (applySightings []
      ([.classic { addr := "AA:BB:CC:DD:EE:FF", name := some "Phone",
                   deviceClass := 0x5A020C }] ++
       [.ble { address := "aa:bb:cc:dd:ee:ff", name := none,
               rssi := -55 }])) "AA:BB:CC:DD:EE:FF" =
      some { classicRecord
              { addr := "AA:BB:CC:DD:EE:FF", name := some "Phone",
                deviceClass := 0x5A020C } with
             modality := "classic+ble", rssi := some (-55),
             bleMetadata := some [] } :=
  ⟨(fusion_merge_last_writer _ _ "AA:BB:CC:DD:EE:FF" (by decide)).1,
   (fusion_merge_last_writer _ _ "AA:BB:CC:DD:EE:FF" (by decide)).2.2.1
     { address := "aa:bb:cc:dd:ee:ff", name := none, rssi := -55 }
     (classicRecord { addr := "AA:BB:CC:DD:EE:FF", name := some "Phone",
                      deviceClass := 0x5A020C })
     rfl (by decide)⟩

/-- C1 counterexample: BLE sighting first, classic sighting second —
the final record has modality `classic` (not `classic+ble`) and no
RSSI: the classic path overwrites instead of merging. -/
theorem fusion_merge_counterexample :
    (regLookup
      (applySightings []
        [.ble { address := "aa:bb:cc:dd:ee:ff", name := some "Phone",
                rssi := -55 },
         .classic { addr := "AA:BB:CC:DD:EE:FF", name := some "Phone",
                    deviceClass := 0x5A020C }])
      "AA:BB:CC:DD:EE:FF").map (fun r => (r.modality, r.rssi)) =
      some ("classic", none) ∧
    ("classic" : String) ≠ "classic+ble" := by
  decide

/-! ## Attack-core theorems -/

/-- C5: submitting an attack of any kind against a target string that
fails MAC validation returns the validation error with the simulator
state untouched — no task registered, no stop flag allocated, no
status transition. -/
theorem execute_attack_invalid_target (st : SimState)
    (attackType : AttackType) (target : String) (duration : Option Nat)
    (params : AttackParams) (env : AttackEnv) (now : Nat)
    (h : validate_mac_address target = false) :
    execute_attack st attackType target duration params env now =
      (st, .error ("Invalid target MAC address: " ++ target)) := by
  unfold execute_attack
  simp [h]

/-- Witness for C5: the malformed target `"nope"` on a non-empty
simulator state. -/
theorem execute_attack_invalid_target_witness :
    validate_mac_address "nope" = false ∧
    execute_attack
        { activeAttacks :=
            [("dos_flood_AA:BB:CC:DD:EE:FF_3",
              { attackType := .dosFlood, target := "AA:BB:CC:DD:EE:FF",
                status := .running, startTime := 3 })],
          stopFlags := [("dos_flood_AA:BB:CC:DD:EE:FF_3", false)] }
        .pinBrute "nope" none {} {} 7 =
      ({ activeAttacks :=
           [("dos_flood_AA:BB:CC:DD:EE:FF_3",
             { attackType := .dosFlood, target := "AA:BB:CC:DD:EE:FF",
               status := .running, startTime := 3 })],
         stopFlags := [("dos_flood_AA:BB:CC:DD:EE:FF_3", false)] },
       .error "Invalid target MAC address: nope") :=
  ⟨by decide,
   execute_attack_invalid_target _ .pinBrute "nope" none {} {} 7 (by decide)⟩

/-- C4: a command whose execution exceeds the gateway's hard 60-second
timeout makes `_execute_command` produce a timeout-classified
`PrivilegeError`, which is neither a `(exitCode, stdout, stderr)`
result nor a generic execution failure. -/
theorem execute_command_timeout_classified (command : List String)
    (beh : CmdBehavior) (hexc : beh.raisesMsg = none)
    (hdur : 60 < beh.duration) :
    TimeoutClassified (_execute_command command beh) ∧
    ¬ IsExitResult (_execute_command command beh) ∧
    ¬ GenericFailureClassified (_execute_command command beh) := by
  have hr : _execute_command command beh =
      .privilegeError ("Command timed out: " ++ timeoutDetail command) := by
    unfold _execute_command
    rw [hexc]
    simp [hdur]
  refine ⟨⟨timeoutDetail command, hr⟩, ?_, ?_⟩
  · rintro ⟨c, o, e, he⟩
    rw [hr] at he
    exact ExecResult.noConfusion he
  · rintro ⟨d, hd⟩
    rw [hr] at hd
    injection hd with hmsg
    have h5 : (some 't' : Option Char) = some 'e' :=
      congrArg (fun s : String => s.toList.get? 8) hmsg
    exact absurd h5 (by decide)

/-- Witness for C4: a 61-second `l2ping` against the 60-second cap. -/
theorem execute_command_timeout_classified_witness :
    (CmdBehavior.raisesMsg
      { duration := 61, exitCode := 0, stdout := "", stderr := "" }) =
        none ∧
    60 < (CmdBehavior.duration
      { duration := 61, exitCode := 0, stdout := "", stderr := "" }) ∧
    (TimeoutClassified (_execute_command ["l2ping", "AA:BB:CC:DD:EE:FF"]
        { duration := 61, exitCode := 0, stdout := "", stderr := "" }) ∧
     ¬ IsExitResult (_execute_command ["l2ping", "AA:BB:CC:DD:EE:FF"]
        { duration := 61, exitCode := 0, stdout := "", stderr := "" }) ∧
     ¬ GenericFailureClassified
        (_execute_command ["l2ping", "AA:BB:CC:DD:EE:FF"]
          { duration := 61, exitCode := 0, stdout := "", stderr := "" })) :=
  ⟨rfl, by decide,
   execute_command_timeout_classified ["l2ping", "AA:BB:CC:DD:EE:FF"]
     { duration := 61, exitCode := 0, stdout := "", stderr := "" }
     rfl (by decide)⟩

/-- Shared helper: `stop_attack` for an id without a registered stop
flag returns `False` and leaves the whole simulator state unchanged. -/
theorem stop_attack_no_flag (st : SimState) (attackId : String)
    (now : Nat) (h : assocGet st.stopFlags attackId = none) :
    stop_attack st attackId now = (st, false) := by
  unfold stop_attack
  rw [h]

/-- C10: requesting a stop for an attack identifier with no registered
stop flag returns `False` and leaves every task's status, end
timestamp, details and error list unchanged (the state is returned
as-is). -/
theorem stop_attack_unknown_id (st : SimState) (attackId : String)
    (now : Nat) (h : assocGet st.stopFlags attackId = none) :
    (stop_attack st attackId now).2 = false ∧
    (stop_attack st attackId now).1 = st := by
  rw [stop_attack_no_flag st attackId now h]
  exact ⟨rfl, rfl⟩

/-- Witness for C10: a cleaned-up task (record retained, flag gone). -/
theorem stop_attack_unknown_id_witness :
    assocGet (SimState.stopFlags
      { activeAttacks :=
          [("pin_bruteforce_AA:BB:CC:DD:EE:FF_0",
            { attackType := .pinBrute, target := "AA:BB:CC:DD:EE:FF",
              status := .success, startTime := 0, endTime := some 6,
              endWrites := 1 })],
        stopFlags := [] }) "pin_bruteforce_AA:BB:CC:DD:EE:FF_0" = none ∧
    (stop_attack
      { activeAttacks :=
          [("pin_bruteforce_AA:BB:CC:DD:EE:FF_0",
            { attackType := .pinBrute, target := "AA:BB:CC:DD:EE:FF",
              status := .success, startTime := 0, endTime := some 6,
              endWrites := 1 })],
        stopFlags := [] } "pin_bruteforce_AA:BB:CC:DD:EE:FF_0" 9).2 =
      false ∧
    (stop_attack
      { activeAttacks :=
          [("pin_bruteforce_AA:BB:CC:DD:EE:FF_0",
            { attackType := .pinBrute, target := "AA:BB:CC:DD:EE:FF",
              status := .success, startTime := 0, endTime := some 6,
              endWrites := 1 })],
        stopFlags := [] } "pin_bruteforce_AA:BB:CC:DD:EE:FF_0" 9).1 =
      { activeAttacks :=
          [("pin_bruteforce_AA:BB:CC:DD:EE:FF_0",
            { attackType := .pinBrute, target := "AA:BB:CC:DD:EE:FF",
              status := .success, startTime := 0, endTime := some 6,
              endWrites := 1 })],
        stopFlags := [] } :=
  ⟨by decide,
   (stop_attack_unknown_id _ "pin_bruteforce_AA:BB:CC:DD:EE:FF_0" 9
      (by decide)).1,
   (stop_attack_unknown_id _ "pin_bruteforce_AA:BB:CC:DD:EE:FF_0" 9
      (by decide)).2⟩

/-- C3 (amended): full characterization of the `max_attempts=50`
PIN-bruteforce run for every landing point of the stop request: the
recorded attempts never exceed 50, the procedure's unconditional
`mark_success` overwrites an in-loop stop (final status `success` with
the end timestamp written twice), a stop landing between procedure
return and cleanup leaves status `stopped` (end timestamp also written
twice), and only runs with no effective stop write the end timestamp
exactly once. -/
theorem pin_brute_run50_characterized (sched : StopSchedule)
    (tS tE : Nat) :
    pinBruteRun50 sched tS tE = some (pinBrute50Expected sched tS tE) := by
  unfold pinBruteRun50 execute_attack
  rw [if_neg (show ¬ (validate_mac_address "AA:BB:CC:DD:EE:FF" = false)
    by decide)]
  simp only [runProcedure]
  cases sched with
  | never =>
      unfold pin_brute
      rw [pinLoop_no_fire _ _ _ _ _ _ rfl (fun k h => by cases h)]
      simp [mark_success, detailsUpdate, assocSet, fireStop,
        pinBrute50Expected]
  | afterCleanup =>
      unfold pin_brute
      rw [pinLoop_no_fire _ _ _ _ _ _ rfl (fun k h => by cases h)]
      simp [mark_success, detailsUpdate, assocSet, fireStop,
        pinBrute50Expected]
  | afterProc =>
      unfold pin_brute
      rw [pinLoop_no_fire _ _ _ _ _ _ rfl (fun k h => by cases h)]
      simp [mark_success, mark_stopped, detailsUpdate, assocSet,
        fireStop, pinBrute50Expected]
  | atIter k =>
      unfold pin_brute
      rw [pinLoop_fire _ _ _ _ _ _ rfl rfl (Nat.zero_le k)]
      by_cases h1 : k < 0 + 50
      · rw [if_pos h1]
        have hmin : min (k + 1) 50 = k + 1 := Nat.min_eq_left (by omega)
        simp only [pinBrute50Expected, if_pos (show k ≤ 50 by omega), hmin]
        simp [mark_success, mark_stopped, detailsUpdate, assocSet,
          fireStop]
      · by_cases h2 : k = 0 + 50
        · rw [if_neg h1, if_pos h2]
          have hmin : min (k + 1) 50 = 50 := Nat.min_eq_right (by omega)
          simp only [pinBrute50Expected, if_pos (show k ≤ 50 by omega),
            hmin]
          simp [mark_success, mark_stopped, detailsUpdate, assocSet,
            fireStop]
        · rw [if_neg h1, if_neg h2]
          simp only [pinBrute50Expected, if_neg (show ¬ k ≤ 50 by omega)]
          simp [mark_success, detailsUpdate, assocSet, fireStop]

/-- C3 counterexample: a stop request landing before the first loop
check terminates the task with status `success` (not `stopped`, even
though it did not finish first) and writes the end timestamp twice
(not exactly once). -/
theorem pin_brute_stop_counterexample :
    (pinBruteRun50 (.atIter 0) 5 9).map
        (fun r => (r.status, r.endWrites)) = some (.success, 2) ∧
    AttackStatus.success ≠ AttackStatus.stopped := by
  decide

/-- C2 counterexample: after `_pin_brute`'s `mark_success` the task is
terminal (`success`), yet while the stop flag is still registered both
the procedure-level stop effect and `stop_attack` itself transition it
to `stopped` — a transition out of a terminal state (and a second
end-time write). -/
theorem terminal_status_overwritten_counterexample :
    (pin_brute { maxAttempts := 1 } .never 0 3
        { res := { attackType := .pinBrute,
                   target := "AA:BB:CC:DD:EE:FF",
                   status := .running, startTime := 0 },
          flagPresent := true,
          flagSet := false }).res.status.isTerminal = true ∧
    (fireStop (pin_brute { maxAttempts := 1 } .never 0 3
        { res := { attackType := .pinBrute,
                   target := "AA:BB:CC:DD:EE:FF",
                   status := .running, startTime := 0 },
          flagPresent := true,
          flagSet := false }) 4).res.status = .stopped ∧
    (fireStop (pin_brute { maxAttempts := 1 } .never 0 3
        { res := { attackType := .pinBrute,
                   target := "AA:BB:CC:DD:EE:FF",
                   status := .running, startTime := 0 },
          flagPresent := true,
          flagSet := false }) 4).res.endWrites = 2 ∧
    AttackStatus.stopped ≠ AttackStatus.success ∧
    (AttackStatus.isTerminal
      (AttackResult.status
        { attackType := .pinBrute, target := "AA:BB:CC:DD:EE:FF",
          status := .success, startTime := 0, endTime := some 3,
          endWrites := 1 })) = true ∧
    (stop_attack
      { activeAttacks :=
          [("pin_bruteforce_AA:BB:CC:DD:EE:FF_0",
            { attackType := .pinBrute, target := "AA:BB:CC:DD:EE:FF",
              status := .success, startTime := 0, endTime := some 3,
              endWrites := 1 })],
        stopFlags := [("pin_bruteforce_AA:BB:CC:DD:EE:FF_0", false)] }
      "pin_bruteforce_AA:BB:CC:DD:EE:FF_0" 4).1.activeAttacks =
      [("pin_bruteforce_AA:BB:CC:DD:EE:FF_0",
        { attackType := .pinBrute, target := "AA:BB:CC:DD:EE:FF",
          status := .stopped, startTime := 0, endTime := some 4,
          endWrites := 2 })] := by
  refine ⟨by decide, by decide, by decide, by decide, by decide, ?_⟩
  decide

/-- C2 (amended): a terminal status is stable only once cleanup has
removed the task's stop flag — from then on any sequence of stop
requests leaves the whole simulator state unchanged; while the flag is
still registered, a stop request overwrites any status (terminal
included) with `stopped` and performs another end-time write. -/
theorem terminal_stable_after_cleanup :
    (∀ (st : SimState) (attackId : String) (times : List Nat),
        assocGet st.stopFlags attackId = none →
        stopMany st attackId times = st) ∧
    (∀ (ps : ProcState) (t : Nat), ps.flagPresent = true →
        (fireStop ps t).res.status = .stopped ∧
        (fireStop ps t).res.endWrites = ps.res.endWrites + 1) := by
  constructor
  · intro st attackId times h
    induction times with
    | nil => rfl
    | cons t ts ih =>
        have hstep : (stop_attack st attackId t).1 = st := by
          rw [stop_attack_no_flag st attackId t h]
        have hrw : stopMany st attackId (t :: ts) =
            stopMany (stop_attack st attackId t).1 attackId ts := rfl
        rw [hrw, hstep]
        exact ih
  · intro ps t h
    simp [fireStop, h, mark_stopped]

/-- Witness for C2 (amended): a cleaned-up successful task survives two
further stop requests untouched; a flag-registered task is flipped. -/
theorem terminal_stable_after_cleanup_witness :
    stopMany
      { activeAttacks :=
          [("pin_bruteforce_AA:BB:CC:DD:EE:FF_0",
            { attackType := .pinBrute, target := "AA:BB:CC:DD:EE:FF",
              status := .success, startTime := 0, endTime := some 6,
              endWrites := 1 })],
        stopFlags := [] } "pin_bruteforce_AA:BB:CC:DD:EE:FF_0" [7, 8] =
      { activeAttacks :=
          [("pin_bruteforce_AA:BB:CC:DD:EE:FF_0",
            { attackType := .pinBrute, target := "AA:BB:CC:DD:EE:FF",
              status := .success, startTime := 0, endTime := some 6,
              endWrites := 1 })],
        stopFlags := [] } ∧
    (fireStop
      { res := { attackType := .pinBrute, target := "AA:BB:CC:DD:EE:FF",
                 status := .success, startTime := 0, endTime := some 6,
                 endWrites := 1 },
        flagPresent := true, flagSet := false } 7).res.status =
      .stopped :=
  ⟨terminal_stable_after_cleanup.1 _ "pin_bruteforce_AA:BB:CC:DD:EE:FF_0"
     [7, 8] (by decide),
   (terminal_stable_after_cleanup.2
     { res := { attackType := .pinBrute, target := "AA:BB:CC:DD:EE:FF",
                status := .success, startTime := 0, endTime := some 6,
                endWrites := 1 },
       flagPresent := true, flagSet := false } 7 (by decide)).1⟩

end BtSec
